import Mathlib

/-!
Verification of the Catapult "Window Commander" plugin
(`catapult_window_commander.py`).

The module is embedded shallowly:

* Python/JSON values are `PyVal`; uncaught Python exceptions are `PyErr`
  propagated through `Except`.
* The D-Bus side is an oracle `DBusEnv`: `respond` gives the outcome of
  each remote call (a GLib error, a falsy variant, or a JSON string) and
  `jsonLoads` is the (deterministic) `json.loads` library function,
  returning `none` on `json.JSONDecodeError`.  `proxyOk` records whether
  the proxy construction in `WindowCommanderDBus.__init__` succeeded.
* Every function that can touch the bus also returns the list of remote
  calls it performed, in order, so that theorems can speak about which
  methods are invoked and how often.
* The Python string/int library functions the module uses
  (`str.lower`, `str.strip`, `str.find`, `str.split`, `str.startswith`,
  `int(...)`, f-string formatting of values) are modelled explicitly on
  `List Char` so that all definitions are executable and provable.
-/

set_option autoImplicit false

/-- Python / JSON values, as produced by `json.loads` and manipulated by
the plugin.  (`bool` is kept separate from `int` although Python's `bool`
is an `int` subclass; the places where this matters — truthiness and the
`> 0` comparison — handle `bool` explicitly.) -/
inductive PyVal where
  | none : PyVal
  | bool : Bool → PyVal
  | int : Int → PyVal
  | str : String → PyVal
  | list : List PyVal → PyVal
  | dict : List (String × PyVal) → PyVal

mutual
/-- Decidable equality of Python values (written out by hand because the
derive handler does not support this nested inductive). -/
def pyValDecEq : (a b : PyVal) → Decidable (a = b)
  | .none, .none => isTrue rfl
  | .none, .bool _ => isFalse (fun h => PyVal.noConfusion h)
  | .none, .int _ => isFalse (fun h => PyVal.noConfusion h)
  | .none, .str _ => isFalse (fun h => PyVal.noConfusion h)
  | .none, .list _ => isFalse (fun h => PyVal.noConfusion h)
  | .none, .dict _ => isFalse (fun h => PyVal.noConfusion h)
  | .bool _, .none => isFalse (fun h => PyVal.noConfusion h)
  | .bool x, .bool y =>
    match decEq x y with
    | isTrue h => isTrue (by rw [h])
    | isFalse h => isFalse (fun hh => h (by injection hh))
  | .bool _, .int _ => isFalse (fun h => PyVal.noConfusion h)
  | .bool _, .str _ => isFalse (fun h => PyVal.noConfusion h)
  | .bool _, .list _ => isFalse (fun h => PyVal.noConfusion h)
  | .bool _, .dict _ => isFalse (fun h => PyVal.noConfusion h)
  | .int _, .none => isFalse (fun h => PyVal.noConfusion h)
  | .int _, .bool _ => isFalse (fun h => PyVal.noConfusion h)
  | .int x, .int y =>
    match decEq x y with
    | isTrue h => isTrue (by rw [h])
    | isFalse h => isFalse (fun hh => h (by injection hh))
  | .int _, .str _ => isFalse (fun h => PyVal.noConfusion h)
  | .int _, .list _ => isFalse (fun h => PyVal.noConfusion h)
  | .int _, .dict _ => isFalse (fun h => PyVal.noConfusion h)
  | .str _, .none => isFalse (fun h => PyVal.noConfusion h)
  | .str _, .bool _ => isFalse (fun h => PyVal.noConfusion h)
  | .str _, .int _ => isFalse (fun h => PyVal.noConfusion h)
  | .str x, .str y =>
    match decEq x y with
    | isTrue h => isTrue (by rw [h])
    | isFalse h => isFalse (fun hh => h (by injection hh))
  | .str _, .list _ => isFalse (fun h => PyVal.noConfusion h)
  | .str _, .dict _ => isFalse (fun h => PyVal.noConfusion h)
  | .list _, .none => isFalse (fun h => PyVal.noConfusion h)
  | .list _, .bool _ => isFalse (fun h => PyVal.noConfusion h)
  | .list _, .int _ => isFalse (fun h => PyVal.noConfusion h)
  | .list _, .str _ => isFalse (fun h => PyVal.noConfusion h)
  | .list xs, .list ys =>
    match pyValListDecEq xs ys with
    | isTrue h => isTrue (by rw [h])
    | isFalse h => isFalse (fun hh => h (by injection hh))
  | .list _, .dict _ => isFalse (fun h => PyVal.noConfusion h)
  | .dict _, .none => isFalse (fun h => PyVal.noConfusion h)
  | .dict _, .bool _ => isFalse (fun h => PyVal.noConfusion h)
  | .dict _, .int _ => isFalse (fun h => PyVal.noConfusion h)
  | .dict _, .str _ => isFalse (fun h => PyVal.noConfusion h)
  | .dict _, .list _ => isFalse (fun h => PyVal.noConfusion h)
  | .dict xs, .dict ys =>
    match pyValDictDecEq xs ys with
    | isTrue h => isTrue (by rw [h])
    | isFalse h => isFalse (fun hh => h (by injection hh))

/-- Decidable equality of lists of Python values. -/
def pyValListDecEq : (a b : List PyVal) → Decidable (a = b)
  | [], [] => isTrue rfl
  | [], _ :: _ => isFalse (fun h => List.noConfusion h)
  | _ :: _, [] => isFalse (fun h => List.noConfusion h)
  | x :: xs, y :: ys =>
    match pyValDecEq x y, pyValListDecEq xs ys with
    | isTrue h1, isTrue h2 => isTrue (by rw [h1, h2])
    | isFalse h1, _ => isFalse (fun hh => h1 (by injection hh))
    | isTrue _, isFalse h2 => isFalse (fun hh => h2 (by injection hh))

/-- Decidable equality of string-keyed association lists of Python values. -/
def pyValDictDecEq : (a b : List (String × PyVal)) → Decidable (a = b)
  | [], [] => isTrue rfl
  | [], _ :: _ => isFalse (fun h => List.noConfusion h)
  | _ :: _, [] => isFalse (fun h => List.noConfusion h)
  | (k, v) :: xs, (k2, v2) :: ys =>
    match decEq k k2, pyValDecEq v v2, pyValDictDecEq xs ys with
    | isTrue h0, isTrue h1, isTrue h2 => isTrue (by rw [h0, h1, h2])
    | isFalse h0, _, _ =>
      isFalse (fun hh => h0 (congrArg (fun l => (l.headD (k, v)).1) hh))
    | isTrue _, isFalse h1, _ =>
      isFalse (fun hh => h1 (congrArg (fun l => (l.headD (k, v)).2) hh))
    | isTrue _, isTrue _, isFalse h2 => isFalse (fun hh => h2 (by injection hh))
end

instance : DecidableEq PyVal := pyValDecEq

/-- Uncaught Python exceptions that the module can raise. -/
inductive PyErr where
  | typeError : PyErr
  | attributeError : PyErr
deriving DecidableEq

/-- Decidable equality for `Except`, needed to evaluate results of the
embedded functions with `decide`. -/
def exceptDecEq {ε α : Type} [DecidableEq ε] [DecidableEq α] :
    (a b : Except ε α) → Decidable (a = b)
  | .error e, .error f =>
    match decEq e f with
    | isTrue h => isTrue (by rw [h])
    | isFalse h => isFalse (fun hh => h (by injection hh))
  | .error _, .ok _ => isFalse (fun h => Except.noConfusion h)
  | .ok _, .error _ => isFalse (fun h => Except.noConfusion h)
  | .ok a, .ok b =>
    match decEq a b with
    | isTrue h => isTrue (by rw [h])
    | isFalse h => isFalse (fun hh => h (by injection hh))

instance {ε α : Type} [DecidableEq ε] [DecidableEq α] : DecidableEq (Except ε α) :=
  exceptDecEq

/-- Python truthiness (`if x:`) for the values above. -/
def pyTruthy : PyVal → Bool
  | .none => false
  | .bool b => b
  | .int n => n != 0
  | .str s => s != ""
  | .list xs => !xs.isEmpty
  | .dict kvs => !kvs.isEmpty

/-- Association-list lookup used to model Python `dict` access
(JSON objects have distinct keys, so first-match lookup is faithful). -/
def lookupStr {α : Type} : List (String × α) → String → Option α
  | [], _ => Option.none
  | (k, v) :: rest, key => if k = key then Option.some v else lookupStr rest key

/-- Model of `d.get(key, default)` on a Python dict. -/
def pyDictGet (kvs : List (String × PyVal)) (key : String) (default : PyVal) : PyVal :=
  (lookupStr kvs key).getD default

/-- A Python value used where a `str` is required (e.g. `.lower()`):
`some` iff the value really is a string, otherwise the Python code raises. -/
def pyAsStr : PyVal → Option String
  | .str s => Option.some s
  | _ => Option.none

/-- The Python comparison `v > 0` (used on the `maximized` field):
defined for ints and bools, a `TypeError` (`none`) otherwise. -/
def pyGtZero : PyVal → Option Bool
  | .int n => Option.some (decide (0 < n))
  | .bool b => Option.some b
  | _ => Option.none

/-- ASCII decimal digit test (the digits accepted by our model of
Python's `int(...)`). -/
def isDig (c : Char) : Bool := 48 ≤ c.toNat && c.toNat ≤ 57

/-- Numeric value of a digit character. -/
def digVal (c : Char) : Nat := c.toNat - 48

/-- Whitespace stripped by Python's `str.strip()`. -/
def isPyWs (c : Char) : Bool :=
  c.toNat = 32 || c.toNat = 9 || c.toNat = 10 || c.toNat = 13 || c.toNat = 11 || c.toNat = 12

/-- Model of `str.strip()` on the character list: drop leading and trailing whitespace. -/
def pyStripL (cs : List Char) : List Char :=
  ((cs.dropWhile isPyWs).reverse.dropWhile isPyWs).reverse

/-- Model of `str.strip()`. -/
def pyStrip (s : String) : String := String.mk (pyStripL s.toList)

/-- Model of `str.lower()` (ASCII case folding, as used by the plugin's queries,
titles and window classes). -/
def pyLower (s : String) : String := String.mk (s.toList.map Char.toLower)

/-- Model of `s[n:]` — Python slicing from character index `n`. -/
def pyDrop (s : String) (n : Nat) : String := String.mk (s.toList.drop n)

/-- Model of `len(s)` in characters. -/
def pyLen (s : String) : Nat := s.toList.length

/-- First index at which `t` occurs as a contiguous sublist of `s`
(`none` when it does not occur); the model of Python's `str.find`
(which returns `-1` for no occurrence). -/
def listFind (s t : List Char) : Option Nat :=
  if t.isPrefixOf s then Option.some 0
  else
    match s with
    | [] => Option.none
    | _ :: rest => (listFind rest t).map (· + 1)

/-- Model of `s.find(t)` on strings, `none` standing for Python's `-1`. -/
def strFind (s t : String) : Option Nat := listFind s.toList t.toList

/-- Model of `s.startswith(p)`. -/
def pyStartsWith (s p : String) : Bool := p.toList.isPrefixOf s.toList

/-- Model of `s.split(sep)` for a one-character separator, on character lists.
Python semantics: `"".split(":") = [""]`, separators are not kept,
adjacent separators produce empty pieces. -/
def pySplitChar (sep : Char) : List Char → List (List Char)
  | [] => [[]]
  | c :: rest =>
    if c = sep then [] :: pySplitChar sep rest
    else
      match pySplitChar sep rest with
      | g :: gs => (c :: g) :: gs
      | [] => [[c]]

/-- Model of `s.split(":")` as used by `WindowCommander.launch`. -/
def pySplitColon (s : String) : List String :=
  (pySplitChar ':' s.toList).map String.mk

/-- Digit character for `d % 10`; used to print integers the way
Python's `str(int)` does. -/
def digitChar : Nat → Char
  | 0 => '0' | 1 => '1' | 2 => '2' | 3 => '3' | 4 => '4'
  | 5 => '5' | 6 => '6' | 7 => '7' | 8 => '8' | _ => '9'

/-- Decimal digits of `n`, most significant first, with explicit fuel so
the definition is structural (any `fuel > n` yields the exact digits). -/
def natDigits : Nat → Nat → List Char
  | 0, _ => []
  | fuel + 1, n =>
    if n < 10 then [digitChar n]
    else natDigits fuel (n / 10) ++ [digitChar (n % 10)]

/-- Model of `str(n)` for a natural number. -/
def natStr (n : Nat) : String := String.mk (natDigits (n + 1) n)

/-- Model of `str(n)` for a Python int. -/
def pyIntStr (n : Int) : String :=
  if n < 0 then String.mk ('-' :: natDigits ((-n).toNat + 1) (-n).toNat)
  else natStr n.toNat

mutual
/-- Core digit-group parser of Python's `int(str)`: digits with single
underscores allowed strictly between digits, accumulating the value. -/
def digitsCore : List Char → Nat → Option Nat
  | [], acc => Option.some acc
  | c :: cs, acc =>
    if isDig c then digitsCore cs (acc * 10 + digVal c)
    else if c = '_' then digitsUnd cs acc else Option.none

/-- State of the parser right after an underscore: the next character
must be a digit (no trailing or doubled underscores). -/
def digitsUnd : List Char → Nat → Option Nat
  | [], _ => Option.none
  | c :: cs, acc =>
    if isDig c then digitsCore cs (acc * 10 + digVal c) else Option.none
end

/-- Parse an unsigned digit group (first character must be a digit,
so no leading underscore). -/
def pyIntCore (cs : List Char) : Option Nat :=
  match cs with
  | [] => Option.none
  | c :: _ => if isDig c then digitsCore cs 0 else Option.none

/-- Python's `int(s)` in base 10: `none` models the `ValueError`.
Whitespace is stripped, an optional single sign is allowed. -/
def pyInt (s : String) : Option Int :=
  match pyStripL s.toList with
  | [] => Option.none
  | c :: rest =>
    if c = '+' then (pyIntCore rest).map Int.ofNat
    else if c = '-' then (pyIntCore rest).map (fun m => -(m : Int))
    else (pyIntCore (c :: rest)).map Int.ofNat

mutual
/-- Model of `repr(v)` for a Python value (enough of it for this module: scalars
are exact, which is all the plugin's f-strings ever format in practice). -/
def pyRepr : PyVal → String
  | .none => "None"
  | .bool true => "True"
  | .bool false => "False"
  | .int n => pyIntStr n
  | .str s => "'" ++ s ++ "'"
  | .list xs => "[" ++ pyReprItems xs ++ "]"
  | .dict kvs => "\x7b" ++ pyReprPairs kvs ++ "\x7d"

/-- Comma-separated reprs of list items. -/
def pyReprItems : List PyVal → String
  | [] => ""
  | [v] => pyRepr v
  | v :: rest => pyRepr v ++ ", " ++ pyReprItems rest

/-- Comma-separated reprs of dict entries. -/
def pyReprPairs : List (String × PyVal) → String
  | [] => ""
  | [(k, v)] => "'" ++ k ++ "': " ++ pyRepr v
  | (k, v) :: rest => "'" ++ k ++ "': " ++ pyRepr v ++ ", " ++ pyReprPairs rest
end

/-- Model of `str(v)`: like `repr` except that strings print without quotes.
This is the conversion applied by f-string interpolation. -/
def pyStr : PyVal → String
  | .str s => s
  | v => pyRepr v

example : pyStr (.int 571) = "571" := by decide
example : pyStr (.int (-42)) = "-42" := by decide
example : pyInt "  12_3 " = Option.some 123 := by decide
example : pyInt "-7" = Option.some (-7) := by decide
example : pyInt "1__2" = Option.none := by decide
example : pyInt "" = Option.none := by decide
example : pyInt "_1" = Option.none := by decide
example : pyInt "1_" = Option.none := by decide
example : pySplitColon "activate:12" = ["activate", "12"] := by decide
example : pySplitColon "a:b:c" = ["a", "b", "c"] := by decide
example : pySplitColon "" = [""] := by decide
example : strFind "firefox" "fire" = Option.some 0 := by decide
example : strFind "xfirefox" "ref" = Option.some 3 := by decide
example : strFind "abc" "zz" = Option.none := by decide
example : strFind "abc" "" = Option.some 0 := by decide
example : pyStartsWith "window 1" "win" = true := by decide
example : pyStartsWith "w" "w " = false := by decide
example : pyStrip "  ab c  " = "ab c" := by decide
example : pyLower "FireFox" = "firefox" := by decide

/-! ## The D-Bus layer (`WindowCommanderDBus`) -/

/-- A GLib variant as constructed by the plugin: `GLib.Variant("u", x)`
and `GLib.Variant("b", x)`. -/
inductive GVariant where
  | u : PyVal → GVariant
  | b : Bool → GVariant
deriving DecidableEq

/-- One remote invocation: the method name handed to `_call_method`
and the tuple of parameters. -/
structure DBusCall where
  method : String
  params : List GVariant
deriving DecidableEq

/-- Outcome of `proxy.call_sync` for one invocation: a raised
`GLib.Error`, a falsy result, or a reply whose first tuple element
unpacks to the string `s`. -/
inductive CallOutcome where
  | err : CallOutcome
  | falsy : CallOutcome
  | ok : String → CallOutcome
deriving DecidableEq

/-- The environment the plugin runs against: whether the D-Bus proxy was
constructed (`__init__` succeeded), how the bus answers each call, and
the `json.loads` library function (`none` = `json.JSONDecodeError`). -/
structure DBusEnv where
  proxyOk : Bool
  respond : String → List GVariant → CallOutcome
  jsonLoads : String → Option PyVal

def DBUS_DESTINATION : String := "org.gnome.Shell"
def DBUS_INTERFACE_NAME : String := "org.gnome.Shell.Extensions.WindowCommander"
def DBUS_OBJECT_PATH : String := "/org/gnome/Shell/Extensions/WindowCommander"

/-- The fully-qualified method name `_call_method` passes to `call_sync`. -/
def fullMethod (m : String) : String := DBUS_INTERFACE_NAME ++ "." ++ m

/-- Model of `WindowCommanderDBus._call_method`: returns the reply string (or
`None`) together with the calls actually placed on the bus (none when
the proxy is unavailable, exactly one otherwise). -/
def callMethod (env : DBusEnv) (m : String) (ps : List GVariant) :
    Option String × List DBusCall :=
  if env.proxyOk then
    (match env.respond m ps with
     | .ok s => Option.some s
     | _ => Option.none,
     [⟨m, ps⟩])
  else (Option.none, [])

/-- Python iteration `for x in v`: `none` models the `TypeError` on
non-iterable values; iterating a dict yields its keys, iterating a
string yields its one-character strings. -/
def pyIterate : PyVal → Option (List PyVal)
  | .list xs => Option.some xs
  | .str s => Option.some (s.toList.map (fun c => .str (String.mk [c])))
  | .dict kvs => Option.some (kvs.map (fun kv => .str kv.1))
  | _ => Option.none

/-- The `for win in basic_windows` loop of
`WindowCommanderDBus.get_all_windows_with_details`: for each window with
a truthy `id`, call `GetDetails` and keep the successfully decoded
details, in order.  Returns the accumulated details (or the uncaught
exception raised on a non-dict element) and the trace of bus calls. -/
def detailsLoop (env : DBusEnv) : List PyVal → Except PyErr (List PyVal) × List DBusCall
  | [] => (.ok [], [])
  | win :: rest =>
    match win with
    | .dict kvs =>
      let win_id := pyDictGet kvs "id" .none
      if pyTruthy win_id then
        let c := callMethod env "GetDetails" [.u win_id]
        match c.1 with
        | Option.none =>
          let r := detailsLoop env rest
          (r.1, c.2 ++ r.2)
        | Option.some djson =>
          if djson = "" then
            let r := detailsLoop env rest
            (r.1, c.2 ++ r.2)
          else
            match env.jsonLoads djson with
            | Option.some details =>
              let r := detailsLoop env rest
              (r.1.map (fun ds => details :: ds), c.2 ++ r.2)
            | Option.none =>
              let r := detailsLoop env rest
              (r.1, c.2 ++ r.2)
      else detailsLoop env rest
    | _ => (.error .attributeError, [])

/-- Model of `WindowCommanderDBus.get_all_windows_with_details`: one `List` call,
then one `GetDetails` call per listed window with a truthy id.
`.ok none` is the Python `None` return; `.error` is an uncaught
exception on malformed JSON shapes. -/
def get_all_windows_with_details (env : DBusEnv) :
    Except PyErr (Option (List PyVal)) × List DBusCall :=
  let c := callMethod env "List" []
  match c.1 with
  | Option.none => (.ok Option.none, c.2)
  | Option.some list_json =>
    if list_json = "" then (.ok Option.none, c.2)
    else
      match env.jsonLoads list_json with
      | Option.none => (.ok Option.none, c.2)
      | Option.some v =>
        match pyIterate v with
        | Option.none => (.error .typeError, c.2)
        | Option.some basic_windows =>
          let r := detailsLoop env basic_windows
          (r.1.map Option.some, c.2 ++ r.2)

/-- The `action_map` dict of `WindowCommanderDBus.execute_action`
(note: it has five entries, `unmaximize` and `minimize` included). -/
def action_map (win_id : Int) : List (String × String × List GVariant) :=
  [("activate", ("Activate", [.u (.int win_id)])),
   ("close", ("Close", [.u (.int win_id), .b false])),
   ("maximize", ("Maximize", [.u (.int win_id)])),
   ("unmaximize", ("Unmaximize", [.u (.int win_id)])),
   ("minimize", ("Minimize", [.u (.int win_id)]))]

/-- Model of `WindowCommanderDBus.execute_action`: look the action up in
`action_map` and place the call; unknown actions only log a warning.
The result is the trace of bus calls. -/
def execute_action (env : DBusEnv) (action : String) (win_id : Int) : List DBusCall :=
  match lookupStr (action_map win_id) action with
  | Option.some mp => (callMethod env mp.1 mp.2).2
  | Option.none => []

/-! ## The plugin layer (`WindowCommander`) -/

/-- A Catapult `SearchResult` as constructed by the plugin (the `plugin`
field, always `self`, is omitted). -/
structure SearchResult where
  id : String
  title : String
  description : String
  icon : String
  score : Nat
  fuzzy : Bool
  offset : Nat
deriving DecidableEq

/-- The `keywords` class attribute. -/
def WC_keywords : List String := ["w", "win", "window"]

/-- The keyword loop at the top of `WindowCommander.search`: the first
keyword `k` with `query.lower().startswith(k + " ")` gives the trigger
word `k + " "`. -/
def findTrigger (query : String) : Option String :=
  match WC_keywords.find? (fun k => pyStartsWith (pyLower query) (k ++ " ")) with
  | Option.some k => Option.some (k ++ " ")
  | Option.none => Option.none

/-- The offset computation of `search`: `title_lower.find(term)`,
falling back to `class_lower.find(term)`. -/
def matchOffset (term title_lower class_lower : String) : Option Nat :=
  match strFind title_lower term with
  | Option.some i => Option.some i
  | Option.none => strFind class_lower term

/-- The connection-error result yielded when
`get_all_windows_with_details` returns `None`. -/
def errorResult : SearchResult :=
  ⟨"error:no-connection", "Window Commander Not Found or Failed",
   "Please ensure the GNOME extension is enabled.", "dialog-warning",
   100, false, 0⟩

/-- The body of `search`'s `for win in windows` loop for a single
window: the results yielded for that window, and the uncaught exception
if a field has an unusable type (results already yielded by the
generator before the exception are kept). -/
def windowResults (term : String) (win : PyVal) : List SearchResult × Option PyErr :=
  match win with
  | .dict kvs =>
    match pyAsStr (pyDictGet kvs "title" (.str "Untitled Window")),
          pyAsStr (pyDictGet kvs "wm_class" (.str "unknown")) with
    | Option.some title, Option.some wm_class =>
      match matchOffset term (pyLower title) (pyLower wm_class) with
      | Option.none => ([], Option.none)
      | Option.some offset =>
        let win_id := pyDictGet kvs "id" .none
        if pyTruthy win_id then
          let idStr := pyStr win_id
          let r1 : SearchResult :=
            ⟨"activate:" ++ idStr, title, "Activate | Class: " ++ wm_class,
             wm_class, 100, false, offset⟩
          let r2 : SearchResult :=
            ⟨"close:" ++ idStr, "Close: " ++ title,
             "Close Window | Class: " ++ wm_class, "window-close", 90, false, offset⟩
          match pyGtZero (pyDictGet kvs "maximized" (.int 0)) with
          | Option.none => ([r1, r2], Option.some .typeError)
          | Option.some maxed =>
            let r3 : SearchResult :=
              if maxed then
                ⟨"unmaximize:" ++ idStr, "Unmaximize: " ++ title,
                 "Unmaximize Window | Class: " ++ wm_class, "view-restore", 80, false, offset⟩
              else
                ⟨"maximize:" ++ idStr, "Maximize: " ++ title,
                 "Maximize Window | Class: " ++ wm_class, "view-fullscreen", 80, false, offset⟩
            ([r1, r2, r3], Option.none)
        else ([], Option.none)
    | _, _ => ([], Option.some .attributeError)
  | _ => ([], Option.some .attributeError)

/-- The whole `for win in windows` loop of `search`: concatenate the
per-window results, stopping at the first uncaught exception. -/
def searchLoop (term : String) : List PyVal → List SearchResult × Option PyErr
  | [] => ([], Option.none)
  | win :: rest =>
    let w := windowResults term win
    match w.2 with
    | Option.some e => (w.1, Option.some e)
    | Option.none =>
      let r := searchLoop term rest
      (w.1 ++ r.1, r.2)

/-- Model of `WindowCommander.search`, as a function from the environment and the
query to the yielded results, the uncaught exception (if any), and the
trace of bus calls. -/
def search (env : DBusEnv) (query : String) :
    List SearchResult × Option PyErr × List DBusCall :=
  match findTrigger query with
  | Option.none => ([], Option.none, [])
  | Option.some trigger =>
    let term := pyLower (pyStrip (pyDrop query (pyLen trigger)))
    let g := get_all_windows_with_details env
    match g.1 with
    | .error e => ([], Option.some e, g.2)
    | .ok Option.none => ([errorResult], Option.none, g.2)
    | .ok (Option.some windows) =>
      let r := searchLoop term windows
      (r.1, r.2, g.2)

/-- Model of `WindowCommander.launch`: parse the result id and dispatch to
`execute_action`; ids starting with `"error:"`, ids that do not split on
`":"` into exactly two parts, and ids with a non-integer second part are
dropped (the latter two with a logged error).  The result is the trace
of bus calls. -/
def launch (env : DBusEnv) (id : String) : List DBusCall :=
  if pyStartsWith id "error:" then []
  else
    match pySplitColon id with
    | [action, win_id_str] =>
      match pyInt win_id_str with
      | Option.some win_id => execute_action env action win_id
      | Option.none => []
    | _ => []

/-! ## Concrete test environments -/

/-- A bus answering `List` with one window (id 1) and `GetDetails` with
full details for it; used to witness the theorems below. -/
def respond1 : String → List GVariant → CallOutcome :=
  fun m _ => if m = "List" then .ok "LIST" else if m = "GetDetails" then .ok "DET" else .ok ""

/-- The `json.loads` table matching `respond1`. -/
def loads1 : String → Option PyVal :=
  fun s =>
    if s = "LIST" then Option.some (.list [.dict [("id", .int 1)]])
    else if s = "DET" then
      Option.some (.dict [("id", .int 1), ("title", .str "Firefox"),
                          ("wm_class", .str "firefox"), ("maximized", .int 0)])
    else Option.none

/-- A healthy environment with one window. -/
def env1 : DBusEnv := ⟨true, respond1, loads1⟩

/-- An environment whose every remote call raises a `GLib.Error`. -/
def envErr : DBusEnv := ⟨true, fun _ _ => .err, fun _ => Option.none⟩

/-- An environment whose proxy construction failed. -/
def envNoProxy : DBusEnv := ⟨false, respond1, loads1⟩

example :
    get_all_windows_with_details env1 =
      (.ok (Option.some [.dict [("id", .int 1), ("title", .str "Firefox"),
                                ("wm_class", .str "firefox"), ("maximized", .int 0)]]),
       [⟨"List", []⟩, ⟨"GetDetails", [.u (.int 1)]⟩]) := by decide

example :
    (search env1 "w fire").1 =
      [⟨"activate:1", "Firefox", "Activate | Class: firefox", "firefox", 100, false, 0⟩,
       ⟨"close:1", "Close: Firefox", "Close Window | Class: firefox", "window-close", 90, false, 0⟩,
       ⟨"maximize:1", "Maximize: Firefox", "Maximize Window | Class: firefox", "view-fullscreen", 80, false, 0⟩] := by
  decide

example : search envErr "w fire" = ([errorResult], Option.none, [⟨"List", []⟩]) := by decide
example : search env1 "w" = ([], Option.none, []) := by decide
example : search env1 "nope" = ([], Option.none, []) := by decide
example : launch env1 "activate:1" = [⟨"Activate", [.u (.int 1)]⟩] := by decide
example : launch env1 "close:3" = [⟨"Close", [.u (.int 3), .b false]⟩] := by decide
example : launch env1 "error:no-connection" = [] := by decide
example : launch env1 "activate:1:2" = [] := by decide
example : launch env1 "activate:x" = [] := by decide
example : launch env1 "minimize:4" = [⟨"Minimize", [.u (.int 4)]⟩] := by decide
example : execute_action env1 "unmaximize" 7 = [⟨"Unmaximize", [.u (.int 7)]⟩] := by decide
example : execute_action env1 "fullscreen" 7 = [] := by decide

/-! ## Lemmas about the string/number models -/

/-- Accumulator semantics of the digit-group value. -/
def valFold (cs : List Char) (acc : Nat) : Nat :=
  cs.foldl (fun a c => a * 10 + digVal c) acc

theorem digitChar_isDig (d : Nat) (h : d < 10) :
    isDig (digitChar d) = true ∧ digVal (digitChar d) = d := by
  interval_cases d <;> exact ⟨rfl, rfl⟩

theorem natDigits_all_dig :
    ∀ (fuel n : Nat), n < fuel → ∀ c ∈ natDigits fuel n, isDig c = true := by
  intro fuel
  induction fuel with
  | zero => intro n h; omega
  | succ f ih =>
    intro n h c hc
    by_cases h10 : n < 10
    · simp only [natDigits, if_pos h10, List.mem_singleton] at hc
      subst hc
      exact (digitChar_isDig n h10).1
    · simp only [natDigits, if_neg h10, List.mem_append, List.mem_singleton] at hc
      rcases hc with hc | hc
      · have hdiv : n / 10 < n := Nat.div_lt_self (by omega) (by omega)
        exact ih (n / 10) (by omega) c hc
      · subst hc
        exact (digitChar_isDig (n % 10) (Nat.mod_lt _ (by omega))).1

theorem natDigits_ne_nil (fuel n : Nat) (h : n < fuel) : natDigits fuel n ≠ [] := by
  cases fuel with
  | zero => omega
  | succ f =>
    by_cases h10 : n < 10 <;> simp [natDigits, h10]

theorem natDigits_val :
    ∀ (fuel n acc : Nat), n < fuel →
      valFold (natDigits fuel n) acc = acc * 10 ^ (natDigits fuel n).length + n := by
  intro fuel
  induction fuel with
  | zero => intro n acc h; omega
  | succ f ih =>
    intro n acc h
    by_cases h10 : n < 10
    · simp [natDigits, h10, valFold]
      have hd := (digitChar_isDig n h10).2
      rw [hd]
    · have hdiv : n / 10 < n := Nat.div_lt_self (by omega) (by omega)
      have hlt : n / 10 < f := by omega
      simp only [natDigits, if_neg h10]
      rw [valFold, List.foldl_append, ← valFold, ← valFold, ih (n / 10) acc hlt]
      have hmod := (digitChar_isDig (n % 10) (Nat.mod_lt _ (by omega))).2
      simp only [valFold, List.foldl_cons, List.foldl_nil, hmod,
        List.length_append, List.length_singleton]
      have hdm : n / 10 * 10 + n % 10 = n := by omega
      have hpow : 10 ^ ((natDigits f (n / 10)).length + 1) =
          10 ^ (natDigits f (n / 10)).length * 10 := by
        rw [pow_succ]
      rw [hpow]
      ring_nf
      omega

theorem digitsCore_all_dig :
    ∀ (cs : List Char) (acc : Nat), (∀ c ∈ cs, isDig c = true) →
      digitsCore cs acc = Option.some (valFold cs acc) := by
  intro cs
  induction cs with
  | nil => intro acc _; rfl
  | cons c cs ih =>
    intro acc h
    have hc : isDig c = true := h c (by simp)
    simp only [digitsCore, hc, if_true]
    rw [ih _ (fun d hd => h d (by simp [hd]))]
    rfl

theorem pyIntCore_natDigits (n : Nat) :
    pyIntCore (natDigits (n + 1) n) = Option.some n := by
  obtain ⟨c, cs, hcons⟩ :=
    List.exists_cons_of_ne_nil (natDigits_ne_nil (n + 1) n (Nat.lt_succ_self n))
  have hall : ∀ d ∈ natDigits (n + 1) n, isDig d = true :=
    natDigits_all_dig (n + 1) n (Nat.lt_succ_self n)
  have hc : isDig c = true := hall c (by rw [hcons]; simp)
  rw [hcons]
  simp only [pyIntCore, if_pos hc]
  rw [← hcons, digitsCore_all_dig _ _ hall, natDigits_val (n + 1) n 0 (Nat.lt_succ_self n)]
  simp

theorem isDig_not_ws (c : Char) (h : isDig c = true) : isPyWs c = false := by
  simp only [isDig, Bool.and_eq_true, decide_eq_true_eq] at h
  simp only [isPyWs, Bool.or_eq_false_iff, decide_eq_false_iff_not]
  omega

theorem pyStripL_id (cs : List Char) (h : ∀ c ∈ cs, isPyWs c = false) :
    pyStripL cs = cs := by
  unfold pyStripL
  have h1 : cs.dropWhile isPyWs = cs := by
    cases cs with
    | nil => rfl
    | cons c cs => simp [List.dropWhile_cons, h c (by simp)]
  rw [h1]
  have h2 : cs.reverse.dropWhile isPyWs = cs.reverse := by
    cases hr : cs.reverse with
    | nil => rfl
    | cons c cs2 =>
      have hc : c ∈ cs := by
        rw [← List.mem_reverse, hr]; simp
      simp [List.dropWhile_cons, h c hc]
  rw [h2, List.reverse_reverse]

theorem pyInt_natStr (n : Nat) : pyInt (natStr n) = Option.some (n : Int) := by
  have hall : ∀ d ∈ natDigits (n + 1) n, isDig d = true :=
    natDigits_all_dig (n + 1) n (Nat.lt_succ_self n)
  have htl : (natStr n).toList = natDigits (n + 1) n := rfl
  unfold pyInt
  rw [htl, pyStripL_id _ (fun c hc => isDig_not_ws c (hall c hc))]
  obtain ⟨c, cs, hcons⟩ :=
    List.exists_cons_of_ne_nil (natDigits_ne_nil (n + 1) n (Nat.lt_succ_self n))
  have hc : isDig c = true := hall c (by rw [hcons]; simp)
  have hplus : ¬ c = '+' := by
    intro he
    rw [he] at hc
    simp [isDig] at hc
  have hminus : ¬ c = '-' := by
    intro he
    rw [he] at hc
    simp [isDig] at hc
  rw [hcons]
  simp only [if_neg hplus, if_neg hminus]
  rw [← hcons, pyIntCore_natDigits n]
  rfl

theorem pyIntStr_pos (n : Int) (h : 0 ≤ n) : pyIntStr n = natStr n.toNat := by
  unfold pyIntStr
  rw [if_neg (by omega)]

theorem pyInt_pyIntStr (n : Int) (h : 0 ≤ n) : pyInt (pyIntStr n) = Option.some n := by
  rw [pyIntStr_pos n h, pyInt_natStr]
  congr 1
  exact Int.toNat_of_nonneg h

theorem pyStr_int (n : Int) : pyStr (.int n) = pyIntStr n := rfl

theorem colon_not_dig : isDig ':' = false := by decide

theorem colon_not_mem_pyIntStr (n : Int) (h : 0 ≤ n) : ':' ∉ (pyIntStr n).toList := by
  rw [pyIntStr_pos n h]
  intro hmem
  have := natDigits_all_dig (n.toNat + 1) n.toNat (Nat.lt_succ_self _) ':' hmem
  rw [colon_not_dig] at this
  exact Bool.noConfusion this

/-! ## Lemmas about splitting, prefixes, and dispatch -/

theorem pySplitChar_no_sep (sep : Char) :
    ∀ cs : List Char, sep ∉ cs → pySplitChar sep cs = [cs] := by
  intro cs
  induction cs with
  | nil => intro _; rfl
  | cons c cs ih =>
    intro h
    have hc : ¬ c = sep := fun he => h (by rw [he]; simp)
    have hcs : sep ∉ cs := fun hm => h (by simp [hm])
    simp only [pySplitChar, if_neg hc, ih hcs]

theorem pySplitChar_append (sep : Char) :
    ∀ xs ys : List Char, sep ∉ xs →
      pySplitChar sep (xs ++ sep :: ys) = xs :: pySplitChar sep ys := by
  intro xs
  induction xs with
  | nil => intro ys _; simp [pySplitChar]
  | cons x xs ih =>
    intro ys h
    have hx : ¬ x = sep := fun he => h (by rw [he]; simp)
    have hxs : sep ∉ xs := fun hm => h (by simp [hm])
    rw [List.cons_append]
    rw [show pySplitChar sep (x :: (xs ++ sep :: ys)) =
          if x = sep then [] :: pySplitChar sep (xs ++ sep :: ys)
          else
            match pySplitChar sep (xs ++ sep :: ys) with
            | g :: gs => (x :: g) :: gs
            | [] => [[x]] from rfl]
    rw [if_neg hx, ih ys hxs]

theorem data_glue (a s : String) :
    (a ++ ":" ++ s).data = a.data ++ ':' :: s.data := by
  rw [String.data_append, String.data_append]
  simp

theorem pySplitColon_glue (a s : String) (ha : ':' ∉ a.data) (hs : ':' ∉ s.data) :
    pySplitColon (a ++ ":" ++ s) = [a, s] := by
  unfold pySplitColon
  show ((pySplitChar ':' (a ++ ":" ++ s).data).map String.mk) = [a, s]
  rw [data_glue, pySplitChar_append _ _ _ ha, pySplitChar_no_sep _ _ hs]
  rfl

theorem isPrefixOf_cons_ne {c d : Char} (h : ¬ c = d) (l1 l2 : List Char) :
    (c :: l1).isPrefixOf (d :: l2) = false := by
  rw [Bool.eq_false_iff]
  intro hx
  rw [List.isPrefixOf_iff_prefix] at hx
  exact h (List.cons_prefix_cons.mp hx).1

theorem pyStartsWith_false_of_head (s p : String) (c d : Char) (cs ds : List Char)
    (hs : s.data = c :: cs) (hp : p.data = d :: ds) (h : ¬ d = c) :
    pyStartsWith s p = false := by
  unfold pyStartsWith
  show (p.data.isPrefixOf s.data) = false
  rw [hs, hp]
  exact isPrefixOf_cons_ne h ds cs

theorem notError_glue (a s : String) (c : Char) (cs : List Char)
    (ha : a.data = c :: cs) (hc : ¬ c = 'e') :
    pyStartsWith (a ++ ":" ++ s) "error:" = false := by
  apply pyStartsWith_false_of_head _ _ c 'e' (cs ++ ':' :: s.data) "rror:".data
  · rw [data_glue, ha]; rfl
  · rfl
  · exact fun he => hc he.symm

theorem launch_glue (env : DBusEnv) (a s : String) (n : Int)
    (ha : ':' ∉ a.data) (hs : ':' ∉ s.data)
    (herr : pyStartsWith (a ++ ":" ++ s) "error:" = false)
    (hn : pyInt s = Option.some n) :
    launch env (a ++ ":" ++ s) = execute_action env a n := by
  unfold launch
  rw [herr]
  simp only [Bool.false_eq_true, if_false]
  rw [pySplitColon_glue a s ha hs]
  show (match pyInt s with
        | Option.some win_id => execute_action env a win_id
        | Option.none => []) = execute_action env a n
  rw [hn]

theorem callMethod_trace (env : DBusEnv) (m : String) (ps : List GVariant) :
    (callMethod env m ps).2 = if env.proxyOk then [⟨m, ps⟩] else [] := by
  by_cases h : env.proxyOk <;> simp [callMethod, h]

theorem callMethod_noProxy (env : DBusEnv) (m : String) (ps : List GVariant)
    (h : env.proxyOk = false) : callMethod env m ps = (Option.none, []) := by
  simp [callMethod, h]

theorem callMethod_err (env : DBusEnv) (m : String) (ps : List GVariant)
    (hp : env.proxyOk = true) (h : env.respond m ps = .err) :
    callMethod env m ps = (Option.none, [⟨m, ps⟩]) := by
  simp [callMethod, hp, h]

theorem callMethod_falsy (env : DBusEnv) (m : String) (ps : List GVariant)
    (hp : env.proxyOk = true) (h : env.respond m ps = .falsy) :
    callMethod env m ps = (Option.none, [⟨m, ps⟩]) := by
  simp [callMethod, hp, h]

theorem callMethod_ok (env : DBusEnv) (m : String) (ps : List GVariant) (s : String)
    (hp : env.proxyOk = true) (h : env.respond m ps = .ok s) :
    callMethod env m ps = (Option.some s, [⟨m, ps⟩]) := by
  simp [callMethod, hp, h]

theorem lookupStr_action_map_none (n : Int) (a : String)
    (h : ¬ (a = "activate" ∨ a = "close" ∨ a = "maximize" ∨ a = "unmaximize" ∨
            a = "minimize")) :
    lookupStr (action_map n) a = Option.none := by
  push_neg at h
  obtain ⟨h1, h2, h3, h4, h5⟩ := h
  simp only [action_map, lookupStr]
  rw [if_neg (Ne.symm h1), if_neg (Ne.symm h2), if_neg (Ne.symm h3),
    if_neg (Ne.symm h4), if_neg (Ne.symm h5)]

theorem lookupStr_action_map_some (n : Int) (a : String)
    (mp : String × List GVariant)
    (h : lookupStr (action_map n) a = Option.some mp) :
    (a = "activate" ∧ mp = ("Activate", [.u (.int n)])) ∨
    (a = "close" ∧ mp = ("Close", [.u (.int n), .b false])) ∨
    (a = "maximize" ∧ mp = ("Maximize", [.u (.int n)])) ∨
    (a = "unmaximize" ∧ mp = ("Unmaximize", [.u (.int n)])) ∨
    (a = "minimize" ∧ mp = ("Minimize", [.u (.int n)])) := by
  simp only [action_map, lookupStr] at h
  split_ifs at h with h1 h2 h3 h4 h5
  · exact Or.inl ⟨h1.symm, (Option.some.inj h).symm⟩
  · exact Or.inr (Or.inl ⟨h2.symm, (Option.some.inj h).symm⟩)
  · exact Or.inr (Or.inr (Or.inl ⟨h3.symm, (Option.some.inj h).symm⟩))
  · exact Or.inr (Or.inr (Or.inr (Or.inl ⟨h4.symm, (Option.some.inj h).symm⟩)))
  · exact Or.inr (Or.inr (Or.inr (Or.inr ⟨h5.symm, (Option.some.inj h).symm⟩)))

theorem execute_action_unknown (env : DBusEnv) (n : Int) (a : String)
    (h : ¬ (a = "activate" ∨ a = "close" ∨ a = "maximize" ∨ a = "unmaximize" ∨
            a = "minimize")) :
    execute_action env a n = [] := by
  unfold execute_action
  rw [lookupStr_action_map_none n a h]

theorem execute_action_activate (env : DBusEnv) (n : Int) (h : env.proxyOk = true) :
    execute_action env "activate" n = [⟨"Activate", [.u (.int n)]⟩] := by
  simp [execute_action, action_map, lookupStr, callMethod, h]

theorem execute_action_close (env : DBusEnv) (n : Int) (h : env.proxyOk = true) :
    execute_action env "close" n = [⟨"Close", [.u (.int n), .b false]⟩] := by
  simp [execute_action, action_map, lookupStr, callMethod, h]

theorem execute_action_maximize (env : DBusEnv) (n : Int) (h : env.proxyOk = true) :
    execute_action env "maximize" n = [⟨"Maximize", [.u (.int n)]⟩] := by
  simp [execute_action, action_map, lookupStr, callMethod, h]

theorem execute_action_unmaximize (env : DBusEnv) (n : Int) (h : env.proxyOk = true) :
    execute_action env "unmaximize" n = [⟨"Unmaximize", [.u (.int n)]⟩] := by
  simp [execute_action, action_map, lookupStr, callMethod, h]

theorem execute_action_minimize (env : DBusEnv) (n : Int) (h : env.proxyOk = true) :
    execute_action env "minimize" n = [⟨"Minimize", [.u (.int n)]⟩] := by
  simp [execute_action, action_map, lookupStr, callMethod, h]

theorem execute_action_methods (env : DBusEnv) (a : String) (n : Int) (c : DBusCall)
    (h : c ∈ execute_action env a n) :
    c.method = "Activate" ∨ c.method = "Close" ∨ c.method = "Maximize" ∨
    c.method = "Unmaximize" ∨ c.method = "Minimize" := by
  unfold execute_action at h
  split at h
  next mp hl =>
    rw [callMethod_trace] at h
    by_cases hp : env.proxyOk
    · rw [if_pos hp] at h
      have hc : c = ⟨mp.1, mp.2⟩ := by simpa using h
      rcases lookupStr_action_map_some n a mp hl with
        ⟨_, hmp⟩ | ⟨_, hmp⟩ | ⟨_, hmp⟩ | ⟨_, hmp⟩ | ⟨_, hmp⟩ <;>
        simp [hc, hmp]
    · rw [if_neg hp] at h
      simp at h
  next hl =>
    simp at h

theorem launch_methods (env : DBusEnv) (id : String) (c : DBusCall)
    (h : c ∈ launch env id) :
    c.method = "Activate" ∨ c.method = "Close" ∨ c.method = "Maximize" ∨
    c.method = "Unmaximize" ∨ c.method = "Minimize" := by
  unfold launch at h
  split at h
  · simp at h
  · split at h
    · split at h
      · exact execute_action_methods env _ _ c h
      · simp at h
    · simp at h

/-! ## Lemmas about the window-listing algorithm -/

/-- The `GetDetails` call that the loop in `get_all_windows_with_details`
places for one listed window (`none` when the window's id is falsy).
Derived one-step summary of `detailsLoop`, used to state its behaviour. -/
def detailCall (win : PyVal) : Option DBusCall :=
  match win with
  | .dict kvs =>
    if pyTruthy (pyDictGet kvs "id" .none) then
      Option.some ⟨"GetDetails", [.u (pyDictGet kvs "id" .none)]⟩
    else Option.none
  | _ => Option.none

/-- The successfully decoded details object for one listed window, if
any.  Derived one-step summary of `detailsLoop`. -/
def detailFetch (env : DBusEnv) (win : PyVal) : Option PyVal :=
  match win with
  | .dict kvs =>
    if pyTruthy (pyDictGet kvs "id" .none) then
      match env.respond "GetDetails" [.u (pyDictGet kvs "id" .none)] with
      | .ok s => if s = "" then Option.none else env.jsonLoads s
      | _ => Option.none
    else Option.none
  | _ => Option.none

theorem detailsLoop_spec (env : DBusEnv) (hp : env.proxyOk = true) :
    ∀ ws : List PyVal, (∀ w ∈ ws, ∃ kvs, w = .dict kvs) →
      detailsLoop env ws =
        (.ok (ws.filterMap (detailFetch env)), ws.filterMap detailCall) := by
  intro ws
  induction ws with
  | nil => intro _; rfl
  | cons w ws ih =>
    intro h
    obtain ⟨kvs, hw⟩ := h w (by simp)
    subst hw
    have hrest := ih (fun u hu => h u (by simp [hu]))
    by_cases ht : pyTruthy (pyDictGet kvs "id" .none)
    · cases hr : env.respond "GetDetails" [.u (pyDictGet kvs "id" .none)] with
      | err =>
        have hfetch : detailFetch env (PyVal.dict kvs) = Option.none := by
          simp [detailFetch, ht, hr]
        simp [detailsLoop, detailCall, ht, hrest, List.filterMap_cons, hfetch,
          callMethod_err env _ _ hp hr]
      | falsy =>
        have hfetch : detailFetch env (PyVal.dict kvs) = Option.none := by
          simp [detailFetch, ht, hr]
        simp [detailsLoop, detailCall, ht, hrest, List.filterMap_cons, hfetch,
          callMethod_falsy env _ _ hp hr]
      | ok s =>
        by_cases hs : s = ""
        · subst hs
          have hfetch : detailFetch env (PyVal.dict kvs) = Option.none := by
            simp [detailFetch, ht, hr]
          simp [detailsLoop, detailCall, ht, hrest, List.filterMap_cons, hfetch,
            callMethod_ok env _ _ _ hp hr]
        · cases hl : env.jsonLoads s with
          | none =>
            have hfetch : detailFetch env (PyVal.dict kvs) = Option.none := by
              simp [detailFetch, ht, hr, hs, hl]
            simp [detailsLoop, detailCall, ht, hs, hl, hrest, List.filterMap_cons,
              hfetch, callMethod_ok env _ _ _ hp hr]
          | some d =>
            have hfetch : detailFetch env (PyVal.dict kvs) = Option.some d := by
              simp [detailFetch, ht, hr, hs, hl]
            simp [detailsLoop, detailCall, ht, hs, hl, hrest, List.filterMap_cons,
              hfetch, callMethod_ok env _ _ _ hp hr, Except.map]
    · simp [detailsLoop, detailFetch, detailCall, ht, hrest]

theorem detailsLoop_methods (env : DBusEnv) :
    ∀ (ws : List PyVal) (c : DBusCall), c ∈ (detailsLoop env ws).2 →
      c.method = "GetDetails" := by
  intro ws
  induction ws with
  | nil => intro c hc; simp [detailsLoop] at hc
  | cons w ws ih =>
    intro c hc
    simp only [detailsLoop] at hc
    split at hc
    · split at hc
      · repeat' split at hc
        all_goals
          first
          | exact ih c hc
          | (rw [callMethod_trace] at hc
             rcases List.mem_append.mp hc with hmem | hmem
             · by_cases hp : env.proxyOk
               · rw [if_pos hp] at hmem
                 simp at hmem
                 simp [hmem]
               · rw [if_neg hp] at hmem
                 simp at hmem
             · exact ih c hmem)
      · exact ih c hc
    · simp at hc

theorem detailsLoop_skip (env : DBusEnv) (kvs : List (String × PyVal)) (rest : List PyVal)
    (hp : env.proxyOk = true)
    (ht : pyTruthy (pyDictGet kvs "id" .none) = true)
    (hfail : detailFetch env (.dict kvs) = Option.none) :
    detailsLoop env (.dict kvs :: rest) =
      ((detailsLoop env rest).1,
       ⟨"GetDetails", [.u (pyDictGet kvs "id" .none)]⟩ :: (detailsLoop env rest).2) := by
  cases hr : env.respond "GetDetails" [.u (pyDictGet kvs "id" .none)] with
  | err => simp [detailsLoop, ht, callMethod_err env _ _ hp hr]
  | falsy => simp [detailsLoop, ht, callMethod_falsy env _ _ hp hr]
  | ok s =>
    simp only [detailFetch, ht, hr, if_true] at hfail
    by_cases hs : s = ""
    · subst hs
      simp [detailsLoop, ht, callMethod_ok env _ _ _ hp hr]
    · rw [if_neg hs] at hfail
      simp [detailsLoop, ht, hs, hfail, callMethod_ok env _ _ _ hp hr]

theorem detailsLoop_ok_loads (env : DBusEnv) :
    ∀ (ws ds : List PyVal), (detailsLoop env ws).1 = .ok ds →
      ∀ d ∈ ds, ∃ s, env.jsonLoads s = Option.some d := by
  intro ws
  induction ws with
  | nil =>
    intro ds h d hd
    simp only [detailsLoop] at h
    cases h
    simp at hd
  | cons w ws ih =>
    intro ds h d hd
    cases w with
    | dict kvs =>
      simp only [detailsLoop] at h
      by_cases ht : pyTruthy (pyDictGet kvs "id" PyVal.none)
      · simp only [ht, if_true] at h
        cases hc1 : (callMethod env "GetDetails" [.u (pyDictGet kvs "id" PyVal.none)]).1 with
        | none =>
          rw [hc1] at h
          exact ih ds h d hd
        | some djson =>
          rw [hc1] at h
          by_cases hs : djson = ""
          · simp only [hs, if_true, if_pos] at h
            exact ih ds h d hd
          · simp only [if_neg hs] at h
            cases hl : env.jsonLoads djson with
            | none =>
              rw [hl] at h
              exact ih ds h d hd
            | some det =>
              rw [hl] at h
              cases hdl : (detailsLoop env ws).1 with
              | error e =>
                rw [hdl] at h
                simp [Except.map] at h
              | ok l =>
                rw [hdl] at h
                simp only [Except.map] at h
                cases h
                rcases List.mem_cons.mp hd with he | hm
                · exact ⟨djson, by rw [hl, he]⟩
                · exact ih l hdl d hm
      · simp only [ht] at h
        simp at h
        exact ih ds h d hd
    | none => simp [detailsLoop] at h
    | bool b => simp [detailsLoop] at h
    | int n => simp [detailsLoop] at h
    | str s => simp [detailsLoop] at h
    | list l => simp [detailsLoop] at h

/-! ## Lemmas about `get_all_windows_with_details` -/

theorem get_all_noProxy (env : DBusEnv) (h : env.proxyOk = false) :
    get_all_windows_with_details env = (.ok Option.none, []) := by
  simp [get_all_windows_with_details, callMethod_noProxy env "List" [] h]

theorem get_all_listFail (env : DBusEnv) (hp : env.proxyOk = true)
    (hfail : env.respond "List" [] = .err ∨ env.respond "List" [] = .falsy ∨
             env.respond "List" [] = .ok "" ∨
             (∃ s, env.respond "List" [] = .ok s ∧ s ≠ "" ∧
               env.jsonLoads s = Option.none)) :
    get_all_windows_with_details env = (.ok Option.none, [⟨"List", []⟩]) := by
  rcases hfail with h | h | h | ⟨s, h, hs, hl⟩
  · simp [get_all_windows_with_details, callMethod_err env _ _ hp h]
  · simp [get_all_windows_with_details, callMethod_falsy env _ _ hp h]
  · simp [get_all_windows_with_details, callMethod_ok env _ _ _ hp h]
  · simp [get_all_windows_with_details, callMethod_ok env _ _ _ hp h, hs, hl]

theorem get_all_spec (env : DBusEnv) (s : String) (ws : List PyVal)
    (hp : env.proxyOk = true) (hresp : env.respond "List" [] = .ok s) (hs : s ≠ "")
    (hload : env.jsonLoads s = Option.some (.list ws))
    (hdict : ∀ w ∈ ws, ∃ kvs, w = .dict kvs) :
    get_all_windows_with_details env =
      (.ok (Option.some (ws.filterMap (detailFetch env))),
       ⟨"List", []⟩ :: ws.filterMap detailCall) := by
  simp [get_all_windows_with_details, callMethod_ok env _ _ _ hp hresp, hs, hload,
    pyIterate, detailsLoop_spec env hp ws hdict, Except.map]

theorem get_all_methods (env : DBusEnv) (c : DBusCall)
    (h : c ∈ (get_all_windows_with_details env).2) :
    c.method = "List" ∨ c.method = "GetDetails" := by
  have hList : c ∈ (callMethod env "List" []).2 → c.method = "List" := by
    intro hmem
    rw [callMethod_trace] at hmem
    by_cases hp : env.proxyOk
    · rw [if_pos hp] at hmem
      simp at hmem
      simp [hmem]
    · rw [if_neg hp] at hmem
      simp at hmem
  simp only [get_all_windows_with_details] at h
  repeat' split at h
  all_goals
    first
    | exact Or.inl (hList h)
    | (rcases List.mem_append.mp h with hmem | hmem
       · exact Or.inl (hList hmem)
       · exact Or.inr (detailsLoop_methods env _ c hmem))

theorem get_all_ok_proxy (env : DBusEnv) (ws : List PyVal)
    (h : (get_all_windows_with_details env).1 = .ok (Option.some ws)) :
    env.proxyOk = true := by
  by_cases hp : env.proxyOk
  · exact hp
  · have hf : env.proxyOk = false := by
      revert hp
      cases env.proxyOk <;> simp
    rw [get_all_noProxy env hf] at h
    simp at h

theorem get_all_ok_loads (env : DBusEnv) (ws : List PyVal)
    (h : (get_all_windows_with_details env).1 = .ok (Option.some ws)) :
    ∀ d ∈ ws, ∃ s, env.jsonLoads s = Option.some d := by
  simp only [get_all_windows_with_details] at h
  split at h
  · simp at h
  · split at h
    · simp at h
    · split at h
      · simp at h
      · split at h
        · simp at h
        · rename_i basic_windows heq
          cases hdl : (detailsLoop env basic_windows).1 with
          | error e =>
            rw [hdl] at h
            simp [Except.map] at h
          | ok l =>
            rw [hdl] at h
            simp only [Except.map] at h
            cases h
            exact detailsLoop_ok_loads env basic_windows ws hdl

/-! ## Lemmas about `search` -/

/-- A window object all of whose fields used by `search` have usable
types, so that iterating over it raises no exception. -/
def wfWin (w : PyVal) : Bool :=
  match w with
  | .dict kvs =>
    (pyAsStr (pyDictGet kvs "title" (.str "Untitled Window"))).isSome &&
    (pyAsStr (pyDictGet kvs "wm_class" (.str "unknown"))).isSome &&
    (pyGtZero (pyDictGet kvs "maximized" (.int 0))).isSome
  | _ => false

theorem windowResults_wf (term : String) (w : PyVal) (h : wfWin w = true) :
    (windowResults term w).2 = Option.none := by
  cases w with
  | dict kvs =>
    simp only [wfWin, Bool.and_eq_true] at h
    obtain ⟨⟨h1, h2⟩, h3⟩ := h
    rw [Option.isSome_iff_exists] at h1 h2 h3
    obtain ⟨t, htt⟩ := h1
    obtain ⟨c, hcc⟩ := h2
    obtain ⟨m, hmm⟩ := h3
    cases ho : matchOffset term (pyLower t) (pyLower c) with
    | none => simp [windowResults, htt, hcc, ho]
    | some off =>
      by_cases htr : pyTruthy (pyDictGet kvs "id" PyVal.none)
      · simp [windowResults, htt, hcc, ho, htr, hmm]
      · simp [windowResults, htt, hcc, ho, htr]
  | none => simp [wfWin] at h
  | bool b => simp [wfWin] at h
  | int n => simp [wfWin] at h
  | str s => simp [wfWin] at h
  | list l => simp [wfWin] at h

theorem searchLoop_mem (term : String) :
    ∀ (ws : List PyVal) (r : SearchResult), r ∈ (searchLoop term ws).1 →
      ∃ w ∈ ws, r ∈ (windowResults term w).1 := by
  intro ws
  induction ws with
  | nil => intro r hr; simp [searchLoop] at hr
  | cons w ws ih =>
    intro r hr
    simp only [searchLoop] at hr
    split at hr
    · exact ⟨w, by simp, hr⟩
    · rcases List.mem_append.mp hr with hm | hm
      · exact ⟨w, by simp, hm⟩
      · obtain ⟨u, hu, hru⟩ := ih r hm
        exact ⟨u, by simp [hu], hru⟩

theorem searchLoop_wf_mem (term : String) :
    ∀ ws : List PyVal, (∀ u ∈ ws, wfWin u = true) →
      ∀ w ∈ ws, ∀ r ∈ (windowResults term w).1, r ∈ (searchLoop term ws).1 := by
  intro ws
  induction ws with
  | nil => intro _ w hw; simp at hw
  | cons u ws ih =>
    intro hall w hw r hr
    have hu2 : (windowResults term u).2 = Option.none :=
      windowResults_wf term u (hall u (by simp))
    simp only [searchLoop, hu2]
    rcases List.mem_cons.mp hw with he | hm
    · subst he
      exact List.mem_append.mpr (Or.inl hr)
    · exact List.mem_append.mpr
        (Or.inr (ih (fun v hv => hall v (by simp [hv])) w hm r hr))

theorem windowResults_pos (term : String) (kvs : List (String × PyVal))
    (title wm_class : String) (off : Nat) (mx : Bool)
    (ht : pyAsStr (pyDictGet kvs "title" (.str "Untitled Window")) = Option.some title)
    (hc : pyAsStr (pyDictGet kvs "wm_class" (.str "unknown")) = Option.some wm_class)
    (ho : matchOffset term (pyLower title) (pyLower wm_class) = Option.some off)
    (htr : pyTruthy (pyDictGet kvs "id" .none) = true)
    (hm : pyGtZero (pyDictGet kvs "maximized" (.int 0)) = Option.some mx) :
    windowResults term (.dict kvs) =
      ([⟨"activate:" ++ pyStr (pyDictGet kvs "id" .none), title,
         "Activate | Class: " ++ wm_class, wm_class, 100, false, off⟩,
        ⟨"close:" ++ pyStr (pyDictGet kvs "id" .none), "Close: " ++ title,
         "Close Window | Class: " ++ wm_class, "window-close", 90, false, off⟩,
        if mx then
          ⟨"unmaximize:" ++ pyStr (pyDictGet kvs "id" .none), "Unmaximize: " ++ title,
           "Unmaximize Window | Class: " ++ wm_class, "view-restore", 80, false, off⟩
        else
          ⟨"maximize:" ++ pyStr (pyDictGet kvs "id" .none), "Maximize: " ++ title,
           "Maximize Window | Class: " ++ wm_class, "view-fullscreen", 80, false, off⟩],
       Option.none) := by
  cases mx <;> simp [windowResults, ht, hc, ho, htr, hm]

theorem windowResults_nomatch (term : String) (kvs : List (String × PyVal))
    (title wm_class : String)
    (ht : pyAsStr (pyDictGet kvs "title" (.str "Untitled Window")) = Option.some title)
    (hc : pyAsStr (pyDictGet kvs "wm_class" (.str "unknown")) = Option.some wm_class)
    (ho : matchOffset term (pyLower title) (pyLower wm_class) = Option.none) :
    windowResults term (.dict kvs) = ([], Option.none) := by
  simp [windowResults, ht, hc, ho]

theorem windowResults_mem (term : String) (win : PyVal) (r : SearchResult)
    (h : r ∈ (windowResults term win).1) :
    ∃ kvs, win = .dict kvs ∧ pyTruthy (pyDictGet kvs "id" .none) = true ∧
      (r.id = "activate:" ++ pyStr (pyDictGet kvs "id" .none) ∨
       r.id = "close:" ++ pyStr (pyDictGet kvs "id" .none) ∨
       r.id = "maximize:" ++ pyStr (pyDictGet kvs "id" .none) ∨
       r.id = "unmaximize:" ++ pyStr (pyDictGet kvs "id" .none)) := by
  cases win with
  | dict kvs =>
    refine ⟨kvs, rfl, ?_⟩
    simp only [windowResults] at h
    split at h
    · split at h
      · simp at h
      · split at h
        · rename_i htr
          split at h
          · simp only [List.mem_cons] at h
            rcases h with he | he | he
            · subst he; exact ⟨htr, Or.inl rfl⟩
            · subst he; exact ⟨htr, Or.inr (Or.inl rfl)⟩
            · simp at he
          · rename_i mx hmx
            simp only [List.mem_cons] at h
            rcases h with he | he | he | he
            · subst he; exact ⟨htr, Or.inl rfl⟩
            · subst he; exact ⟨htr, Or.inr (Or.inl rfl)⟩
            · subst he
              cases mx with
              | true => exact ⟨htr, Or.inr (Or.inr (Or.inr (by simp)))⟩
              | false => exact ⟨htr, Or.inr (Or.inr (Or.inl (by simp)))⟩
            · simp at he
        · simp at h
    · simp at h
  | none => simp [windowResults] at h
  | bool b => simp [windowResults] at h
  | int n => simp [windowResults] at h
  | str s => simp [windowResults] at h
  | list l => simp [windowResults] at h

theorem search_untriggered (env : DBusEnv) (q : String)
    (hf : findTrigger q = Option.none) :
    search env q = ([], Option.none, []) := by
  simp [search, hf]

theorem findTrigger_none (q : String)
    (h1 : pyStartsWith (pyLower q) "w " = false)
    (h2 : pyStartsWith (pyLower q) "win " = false)
    (h3 : pyStartsWith (pyLower q) "window " = false) :
    findTrigger q = Option.none := by
  have e1 : ("w" : String) ++ " " = "w " := rfl
  have e2 : ("win" : String) ++ " " = "win " := rfl
  have e3 : ("window" : String) ++ " " = "window " := rfl
  simp only [findTrigger, WC_keywords, List.find?, e1, e2, e3, h1, h2, h3]

theorem search_eq_of (env : DBusEnv) (q trigger : String) (wins : List PyVal)
    (hf : findTrigger q = Option.some trigger)
    (hg : (get_all_windows_with_details env).1 = .ok (Option.some wins)) :
    (search env q).1 =
      (searchLoop (pyLower (pyStrip (pyDrop q (pyLen trigger)))) wins).1 := by
  simp only [search, hf, hg]

theorem search_mem (env : DBusEnv) (q : String) (r : SearchResult)
    (h : r ∈ (search env q).1) :
    r = errorResult ∨
    ∃ trigger wins, findTrigger q = Option.some trigger ∧
      (get_all_windows_with_details env).1 = .ok (Option.some wins) ∧
      ∃ w ∈ wins,
        r ∈ (windowResults (pyLower (pyStrip (pyDrop q (pyLen trigger)))) w).1 := by
  simp only [search] at h
  split at h
  · simp at h
  · rename_i trigger hf
    split at h
    · simp at h
    · left
      simpa using h
    · right
      rename_i wins hg
      obtain ⟨w, hw, hr⟩ := searchLoop_mem _ wins r h
      exact ⟨trigger, wins, hf, hg, w, hw, hr⟩

theorem search_trace (env : DBusEnv) (q : String) :
    (search env q).2.2 = [] ∨
    (search env q).2.2 = (get_all_windows_with_details env).2 := by
  simp only [search]
  split
  · left; rfl
  · split
    · right; rfl
    · right; rfl
    · right; rfl

theorem search_methods (env : DBusEnv) (q : String) (c : DBusCall)
    (h : c ∈ (search env q).2.2) :
    c.method = "List" ∨ c.method = "GetDetails" := by
  rcases search_trace env q with ht | ht
  · rw [ht] at h; simp at h
  · rw [ht] at h; exact get_all_methods env c h

/-! ## Launch on the ids produced by `search` -/

theorem launch_activate (env : DBusEnv) (n : Int) (hn : 0 ≤ n) (hp : env.proxyOk = true) :
    launch env ("activate:" ++ pyIntStr n) = [⟨"Activate", [.u (.int n)]⟩] := by
  have hfold : ("activate:" : String) ++ pyIntStr n = "activate" ++ ":" ++ pyIntStr n := by
    rw [show ("activate" : String) ++ ":" = "activate:" from rfl]
  rw [hfold,
    launch_glue env "activate" (pyIntStr n) n (by decide)
      (colon_not_mem_pyIntStr n hn)
      (notError_glue "activate" (pyIntStr n) 'a' "ctivate".data rfl (by decide))
      (pyInt_pyIntStr n hn),
    execute_action_activate env n hp]

theorem launch_close (env : DBusEnv) (n : Int) (hn : 0 ≤ n) (hp : env.proxyOk = true) :
    launch env ("close:" ++ pyIntStr n) = [⟨"Close", [.u (.int n), .b false]⟩] := by
  have hfold : ("close:" : String) ++ pyIntStr n = "close" ++ ":" ++ pyIntStr n := by
    rw [show ("close" : String) ++ ":" = "close:" from rfl]
  rw [hfold,
    launch_glue env "close" (pyIntStr n) n (by decide)
      (colon_not_mem_pyIntStr n hn)
      (notError_glue "close" (pyIntStr n) 'c' "lose".data rfl (by decide))
      (pyInt_pyIntStr n hn),
    execute_action_close env n hp]

theorem launch_maximize (env : DBusEnv) (n : Int) (hn : 0 ≤ n) (hp : env.proxyOk = true) :
    launch env ("maximize:" ++ pyIntStr n) = [⟨"Maximize", [.u (.int n)]⟩] := by
  have hfold : ("maximize:" : String) ++ pyIntStr n = "maximize" ++ ":" ++ pyIntStr n := by
    rw [show ("maximize" : String) ++ ":" = "maximize:" from rfl]
  rw [hfold,
    launch_glue env "maximize" (pyIntStr n) n (by decide)
      (colon_not_mem_pyIntStr n hn)
      (notError_glue "maximize" (pyIntStr n) 'm' "aximize".data rfl (by decide))
      (pyInt_pyIntStr n hn),
    execute_action_maximize env n hp]

theorem launch_unmaximize (env : DBusEnv) (n : Int) (hn : 0 ≤ n) (hp : env.proxyOk = true) :
    launch env ("unmaximize:" ++ pyIntStr n) = [⟨"Unmaximize", [.u (.int n)]⟩] := by
  have hfold : ("unmaximize:" : String) ++ pyIntStr n = "unmaximize" ++ ":" ++ pyIntStr n := by
    rw [show ("unmaximize" : String) ++ ":" = "unmaximize:" from rfl]
  rw [hfold,
    launch_glue env "unmaximize" (pyIntStr n) n (by decide)
      (colon_not_mem_pyIntStr n hn)
      (notError_glue "unmaximize" (pyIntStr n) 'u' "nmaximize".data rfl (by decide))
      (pyInt_pyIntStr n hn),
    execute_action_unmaximize env n hp]

/-! ## No result id ever names the minimize action -/

theorem ne_append_two (x y t s : String) (c1 c2 d1 d2 : Char) (cs ds : List Char)
    (hx : x.data = c1 :: c2 :: cs) (hy : y.data = d1 :: d2 :: ds)
    (hne : ¬ (c1 = d1 ∧ c2 = d2)) :
    x ++ t ≠ y ++ s := by
  intro h
  have hd := congrArg String.data h
  rw [String.data_append, String.data_append, hx, hy, List.cons_append,
    List.cons_append, List.cons_append, List.cons_append] at hd
  injection hd with h1 hd2
  injection hd2 with h2 _
  exact hne ⟨h1, h2⟩

theorem errorResult_ne_minimize (s : String) :
    "error:no-connection" ≠ "minimize:" ++ s := by
  intro h
  have hd := congrArg String.data h
  rw [String.data_append,
    show ("error:no-connection" : String).data = 'e' :: 'r' :: "ror:no-connection".data
      from rfl,
    show ("minimize:" : String).data = 'm' :: 'i' :: "nimize:".data from rfl,
    List.cons_append, List.cons_append] at hd
  injection hd with h1 _
  exact absurd h1 (by decide)

theorem search_no_minimize (env : DBusEnv) (q : String) (r : SearchResult)
    (h : r ∈ (search env q).1) (s : String) :
    r.id ≠ "minimize:" ++ s := by
  rcases search_mem env q r h with he | ⟨trigger, wins, hf, hg, w, hw, hrw⟩
  · subst he
    exact errorResult_ne_minimize s
  · obtain ⟨kvs, _, _, hid⟩ := windowResults_mem _ w r hrw
    rcases hid with h4 | h4 | h4 | h4 <;> rw [h4]
    · exact ne_append_two "activate:" "minimize:" _ s 'a' 'c' 'm' 'i'
        "tivate:".data "nimize:".data rfl rfl (by decide)
    · exact ne_append_two "close:" "minimize:" _ s 'c' 'l' 'm' 'i'
        "ose:".data "nimize:".data rfl rfl (by decide)
    · exact ne_append_two "maximize:" "minimize:" _ s 'm' 'a' 'm' 'i'
        "ximize:".data "nimize:".data rfl rfl (by decide)
    · exact ne_append_two "unmaximize:" "minimize:" _ s 'u' 'n' 'm' 'i'
        "maximize:".data "nimize:".data rfl rfl (by decide)

/-- An environment whose `List` reply decodes but whose `GetDetails`
replies are not valid JSON; used as a witness for the decode-failure
behaviour. -/
def envBadJson : DBusEnv :=
  ⟨true, fun m _ => if m = "List" then .ok "LIST" else .ok "BAD",
   fun s => if s = "LIST" then Option.some (.list [.dict [("id", .int 1)]])
            else Option.none⟩

/-! ## The claims -/

/-- Claim C1: round trip between the search and launch callbacks — when
every window id delivered by the extension is an integer `n > 0`, every
non-error result yielded by `search` carries an id `"a:n"` with `a` one
of activate/close/maximize/unmaximize, and `launch` on that exact id
places exactly the one mapped D-Bus call (`Activate`/`Close`/`Maximize`/
`Unmaximize`) with window id `n`, and no other call. -/
theorem claim_C1_round_trip (env : DBusEnv) (q : String) (r : SearchResult)
    (hwf : ∀ s kvs, env.jsonLoads s = Option.some (.dict kvs) →
      ∀ v, lookupStr kvs "id" = Option.some v → ∃ n : Int, v = .int n ∧ 0 < n)
    (hr : r ∈ (search env q).1) (hne : r.id ≠ "error:no-connection") :
    ∃ n : Int, 0 < n ∧
      ((r.id = "activate:" ++ pyIntStr n ∧
        launch env r.id = [⟨"Activate", [.u (.int n)]⟩]) ∨
       (r.id = "close:" ++ pyIntStr n ∧
        launch env r.id = [⟨"Close", [.u (.int n), .b false]⟩]) ∨
       (r.id = "maximize:" ++ pyIntStr n ∧
        launch env r.id = [⟨"Maximize", [.u (.int n)]⟩]) ∨
       (r.id = "unmaximize:" ++ pyIntStr n ∧
        launch env r.id = [⟨"Unmaximize", [.u (.int n)]⟩])) := by
  rcases search_mem env q r hr with he | ⟨trigger, wins, hf, hg, w, hw, hrw⟩
  · subst he
    exact absurd rfl hne
  · have hp : env.proxyOk = true := get_all_ok_proxy env wins hg
    obtain ⟨kvs, hwd, htr, hid⟩ := windowResults_mem _ w r hrw
    subst hwd
    obtain ⟨s, hws⟩ := get_all_ok_loads env wins hg (PyVal.dict kvs) hw
    have hidv : ∃ n : Int, pyDictGet kvs "id" PyVal.none = .int n ∧ 0 < n := by
      cases hlk : lookupStr kvs "id" with
      | none => simp [pyDictGet, hlk, pyTruthy] at htr
      | some v =>
        obtain ⟨n, hv, hn⟩ := hwf s kvs hws v hlk
        exact ⟨n, by simp [pyDictGet, hlk, hv], hn⟩
    obtain ⟨n, hidn, hn⟩ := hidv
    refine ⟨n, hn, ?_⟩
    rw [hidn, pyStr_int] at hid
    rcases hid with h4 | h4 | h4 | h4
    · exact Or.inl ⟨h4, by rw [h4]; exact launch_activate env n (le_of_lt hn) hp⟩
    · exact Or.inr (Or.inl ⟨h4, by
        rw [h4]; exact launch_close env n (le_of_lt hn) hp⟩)
    · exact Or.inr (Or.inr (Or.inl ⟨h4, by
        rw [h4]; exact launch_maximize env n (le_of_lt hn) hp⟩))
    · exact Or.inr (Or.inr (Or.inr ⟨h4, by
        rw [h4]; exact launch_unmaximize env n (le_of_lt hn) hp⟩))

/-- Witness for C1 at the concrete environment `env1` and the query
`"w fire"`, instantiated at the activate result for window 1. -/
theorem claim_C1_round_trip_witness :
    (⟨"activate:1", "Firefox", "Activate | Class: firefox", "firefox", 100, false, 0⟩ :
      SearchResult) ∈ (search env1 "w fire").1 ∧
    (∃ n : Int, 0 < n ∧
      ((("activate:1" : String) = "activate:" ++ pyIntStr n ∧
        launch env1 "activate:1" = [⟨"Activate", [.u (.int n)]⟩]) ∨
       (("activate:1" : String) = "close:" ++ pyIntStr n ∧
        launch env1 "activate:1" = [⟨"Close", [.u (.int n), .b false]⟩]) ∨
       (("activate:1" : String) = "maximize:" ++ pyIntStr n ∧
        launch env1 "activate:1" = [⟨"Maximize", [.u (.int n)]⟩]) ∨
       (("activate:1" : String) = "unmaximize:" ++ pyIntStr n ∧
        launch env1 "activate:1" = [⟨"Unmaximize", [.u (.int n)]⟩]))) := by
  refine ⟨by decide, claim_C1_round_trip env1 "w fire"
    ⟨"activate:1", "Firefox", "Activate | Class: firefox", "firefox", 100, false, 0⟩
    ?_ (by decide) (by decide)⟩
  intro s kvs hs v hv
  by_cases h1 : s = "LIST"
  · subst h1
    simp [env1, loads1] at hs
  · by_cases h2 : s = "DET"
    · subst h2
      simp [env1, loads1] at hs
      subst hs
      simp [lookupStr] at hv
      exact ⟨1, by simp [hv], by decide⟩
    · simp [env1, loads1, h1, h2] at hs

/-- Claim C2: the set of remote method names the program invokes on the
bus is exactly the seven names List, GetDetails, Activate, Close,
Maximize, Unmaximize, Minimize: every call placed by the two entry
points (`search` and
`launch`) uses one of these seven names, and each of the seven is
reached by a concrete input. -/
theorem claim_C2_method_names :
    (∀ (env : DBusEnv) (q : String), ∀ c ∈ (search env q).2.2,
       c.method = "List" ∨ c.method = "GetDetails") ∧
    (∀ (env : DBusEnv) (id : String), ∀ c ∈ launch env id,
       c.method = "Activate" ∨ c.method = "Close" ∨ c.method = "Maximize" ∨
       c.method = "Unmaximize" ∨ c.method = "Minimize") ∧
    (search env1 "w fire").2.2 = [⟨"List", []⟩, ⟨"GetDetails", [.u (.int 1)]⟩] ∧
    launch env1 "activate:1" = [⟨"Activate", [.u (.int 1)]⟩] ∧
    launch env1 "close:1" = [⟨"Close", [.u (.int 1), .b false]⟩] ∧
    launch env1 "maximize:1" = [⟨"Maximize", [.u (.int 1)]⟩] ∧
    launch env1 "unmaximize:1" = [⟨"Unmaximize", [.u (.int 1)]⟩] ∧
    launch env1 "minimize:1" = [⟨"Minimize", [.u (.int 1)]⟩] :=
  ⟨fun env q c hc => search_methods env q c hc,
   fun env id c hc => launch_methods env id c hc,
   by decide, by decide, by decide, by decide, by decide, by decide⟩

/-- Claim C3: the two-step query algorithm — one `List` call, then one
`GetDetails` call per listed window with a truthy id, in order, and the
result is the list of successfully decoded details objects in the same
order. -/
theorem claim_C3_two_step (env : DBusEnv) (s : String) (ws : List PyVal)
    (hp : env.proxyOk = true) (hresp : env.respond "List" [] = .ok s) (hs : s ≠ "")
    (hload : env.jsonLoads s = Option.some (.list ws))
    (hdict : ∀ w ∈ ws, ∃ kvs, w = .dict kvs) :
    get_all_windows_with_details env =
      (.ok (Option.some (ws.filterMap (detailFetch env))),
       ⟨"List", []⟩ :: ws.filterMap detailCall) :=
  get_all_spec env s ws hp hresp hs hload hdict

/-- Witness for C3 at `env1` (one listed window, id 1). -/
theorem claim_C3_two_step_witness :
    get_all_windows_with_details env1 =
      (.ok (Option.some [.dict [("id", .int 1), ("title", .str "Firefox"),
        ("wm_class", .str "firefox"), ("maximized", .int 0)]]),
       [⟨"List", []⟩, ⟨"GetDetails", [.u (.int 1)]⟩]) := by
  have h := claim_C3_two_step env1 "LIST" [.dict [("id", .int 1)]] rfl (by decide)
    (by decide) (by decide) (by intro w hw; simp at hw; exact ⟨_, hw⟩)
  rw [h]
  decide

/-- Counterexample to C4 as stated: `execute_action` with the action
string `"unmaximize"` does place a remote call although `"unmaximize"`
is not one of the four commands the claim lists. -/
theorem claim_C4_cex :
    execute_action env1 "unmaximize" 7 = [⟨"Unmaximize", [.u (.int 7)]⟩] ∧
    ¬ ("unmaximize" = "activate" ∨ "unmaximize" = "close" ∨
       "unmaximize" = "maximize" ∨ "unmaximize" = "minimize") :=
  ⟨by decide, by decide⟩

/-- Claim C4 (amended): the set of forwarded action commands is exactly
the five commands activate, close, maximize, unmaximize, minimize: with a live
proxy, `execute_action a id` places a remote call iff `a` is one of the
five, and for any other `a` it places no call (only logging a warning). -/
theorem claim_C4_amended (env : DBusEnv) (a : String) (n : Int) :
    (env.proxyOk = true →
      (execute_action env a n ≠ [] ↔
        (a = "activate" ∨ a = "close" ∨ a = "maximize" ∨ a = "unmaximize" ∨
         a = "minimize"))) ∧
    (¬ (a = "activate" ∨ a = "close" ∨ a = "maximize" ∨ a = "unmaximize" ∨
        a = "minimize") → execute_action env a n = []) := by
  constructor
  · intro hp
    constructor
    · intro hne
      by_contra hmem
      exact hne (execute_action_unknown env n a hmem)
    · intro hmem
      rcases hmem with h | h | h | h | h <;> subst h <;>
        simp [execute_action_activate env n hp, execute_action_close env n hp,
          execute_action_maximize env n hp, execute_action_unmaximize env n hp,
          execute_action_minimize env n hp]
  · exact execute_action_unknown env n a

/-- Witness for C4 (amended) at `env1` and the action `"unmaximize"`. -/
theorem claim_C4_amended_witness :
    execute_action env1 "unmaximize" 3 ≠ [] ↔
      ("unmaximize" = "activate" ∨ "unmaximize" = "close" ∨
       "unmaximize" = "maximize" ∨ "unmaximize" = "unmaximize" ∨
       "unmaximize" = "minimize") :=
  (claim_C4_amended env1 "unmaximize" 3).1 rfl

/-- Claim C5: no failure recovery beyond logging — on proxy-construction
failure every call returns `None` with no bus traffic; a remote call
error is attempted exactly once and yields `None`; a `List` decode error
yields `None` after the single `List` call; a `GetDetails` failure
skips just that window after its single call.  No retry appears in any
trace and no other call is placed. -/
theorem claim_C5_no_recovery (env : DBusEnv) (m : String) (ps : List GVariant)
    (s : String) (kvs : List (String × PyVal)) (rest : List PyVal) :
    (env.proxyOk = false → callMethod env m ps = (Option.none, []) ∧
       get_all_windows_with_details env = (.ok Option.none, [])) ∧
    (env.proxyOk = true → env.respond m ps = .err →
       callMethod env m ps = (Option.none, [⟨m, ps⟩])) ∧
    (env.proxyOk = true → env.respond "List" [] = .ok s → s ≠ "" →
       env.jsonLoads s = Option.none →
       get_all_windows_with_details env = (.ok Option.none, [⟨"List", []⟩])) ∧
    (env.proxyOk = true → pyTruthy (pyDictGet kvs "id" .none) = true →
       detailFetch env (.dict kvs) = Option.none →
       detailsLoop env (.dict kvs :: rest) =
         ((detailsLoop env rest).1,
          ⟨"GetDetails", [.u (pyDictGet kvs "id" .none)]⟩ ::
            (detailsLoop env rest).2)) :=
  ⟨fun hp => ⟨callMethod_noProxy env m ps hp, get_all_noProxy env hp⟩,
   fun hp he => callMethod_err env m ps hp he,
   fun hp hr hs hl => get_all_listFail env hp (Or.inr (Or.inr (Or.inr ⟨s, hr, hs, hl⟩))),
   fun hp ht hf => detailsLoop_skip env kvs rest hp ht hf⟩

/-- Witness for C5: each failure mode exercised on a concrete
environment. -/
theorem claim_C5_no_recovery_witness :
    (callMethod envNoProxy "List" [] = (Option.none, []) ∧
     get_all_windows_with_details envNoProxy = (.ok Option.none, [])) ∧
    callMethod envErr "List" [] = (Option.none, [⟨"List", []⟩]) ∧
    get_all_windows_with_details envErr = (.ok Option.none, [⟨"List", []⟩]) ∧
    detailsLoop envBadJson [.dict [("id", .int 1)]] =
      (.ok [], [⟨"GetDetails", [.u (.int 1)]⟩]) := by
  refine ⟨(claim_C5_no_recovery envNoProxy "List" [] "" [] []).1 rfl,
    (claim_C5_no_recovery envErr "List" [] "" [] []).2.1 rfl rfl, ?_, ?_⟩
  · exact get_all_listFail envErr rfl (Or.inl rfl)
  · exact (claim_C5_no_recovery envBadJson "List" [] "" [("id", .int 1)] []).2.2.2
      rfl (by decide) (by decide)

/-- Claim C6: every remote response is parsed as JSON before use, with
asymmetric failure handling — an absent, empty or undecodable `List`
response makes `get_all_windows_with_details` return `None`, while an
absent or undecodable `GetDetails` response only omits that window and
the remaining windows are still returned. -/
theorem claim_C6_json_failures (env : DBusEnv) (s : String)
    (kvs : List (String × PyVal)) (rest : List PyVal) :
    (env.proxyOk = false →
       get_all_windows_with_details env = (.ok Option.none, [])) ∧
    (env.proxyOk = true →
      (env.respond "List" [] = .err ∨ env.respond "List" [] = .falsy ∨
       env.respond "List" [] = .ok "" ∨
       (env.respond "List" [] = .ok s ∧ s ≠ "" ∧
         env.jsonLoads s = Option.none)) →
      get_all_windows_with_details env = (.ok Option.none, [⟨"List", []⟩])) ∧
    (env.proxyOk = true → pyTruthy (pyDictGet kvs "id" .none) = true →
      detailFetch env (.dict kvs) = Option.none →
      detailsLoop env (.dict kvs :: rest) =
        ((detailsLoop env rest).1,
         ⟨"GetDetails", [.u (pyDictGet kvs "id" .none)]⟩ ::
           (detailsLoop env rest).2)) :=
  ⟨fun hp => get_all_noProxy env hp,
   fun hp hfail => get_all_listFail env hp (by
     rcases hfail with h | h | h | ⟨h, hs, hl⟩
     · exact Or.inl h
     · exact Or.inr (Or.inl h)
     · exact Or.inr (Or.inr (Or.inl h))
     · exact Or.inr (Or.inr (Or.inr ⟨s, h, hs, hl⟩))),
   fun hp ht hf => detailsLoop_skip env kvs rest hp ht hf⟩

/-- Witness for C6: the two sides of the asymmetry on concrete
environments — a dead `List` call loses everything, a bad `GetDetails`
decode only drops the one window (here: the only window). -/
theorem claim_C6_json_failures_witness :
    get_all_windows_with_details envErr = (.ok Option.none, [⟨"List", []⟩]) ∧
    detailsLoop envBadJson [.dict [("id", .int 1)]] =
      (.ok [], [⟨"GetDetails", [.u (.int 1)]⟩]) :=
  ⟨(claim_C6_json_failures envErr "" [] []).2.1 rfl (Or.inl rfl),
   (claim_C6_json_failures envBadJson "" [("id", .int 1)] []).2.2
     rfl (by decide) (by decide)⟩

/-- Claim C7: windows are exposed as launcher search results — for a
triggered query, every fetched well-formed window with a truthy id whose
title or wm_class contains the (lowercased, stripped) remaining search
term yields results in the `search` output (here witnessed by its
activate result), and a window in which the term occurs in neither field
yields no result at all. -/
theorem claim_C7_exposure (env : DBusEnv) (q trigger term : String)
    (wins : List PyVal) (kvs : List (String × PyVal)) (title wm_class : String)
    (hterm : term = pyLower (pyStrip (pyDrop q (pyLen trigger))))
    (hf : findTrigger q = Option.some trigger)
    (hg : (get_all_windows_with_details env).1 = .ok (Option.some wins))
    (hall : ∀ u ∈ wins, wfWin u = true)
    (hw : PyVal.dict kvs ∈ wins)
    (ht : pyAsStr (pyDictGet kvs "title" (.str "Untitled Window")) = Option.some title)
    (hc : pyAsStr (pyDictGet kvs "wm_class" (.str "unknown")) = Option.some wm_class) :
    ((strFind (pyLower title) term ≠ Option.none ∨
      strFind (pyLower wm_class) term ≠ Option.none) →
     pyTruthy (pyDictGet kvs "id" .none) = true →
     ∃ r ∈ (search env q).1,
       r.id = "activate:" ++ pyStr (pyDictGet kvs "id" .none) ∧ r.title = title) ∧
    (strFind (pyLower title) term = Option.none →
     strFind (pyLower wm_class) term = Option.none →
     (windowResults term (.dict kvs)).1 = []) := by
  constructor
  · intro hfound htr
    have ho : ∃ off,
        matchOffset term (pyLower title) (pyLower wm_class) = Option.some off := by
      unfold matchOffset
      cases h1 : strFind (pyLower title) term with
      | some i => exact ⟨i, rfl⟩
      | none =>
        cases h2 : strFind (pyLower wm_class) term with
        | some j => exact ⟨j, rfl⟩
        | none =>
          rcases hfound with hx | hx
          · exact absurd h1 hx
          · exact absurd h2 hx
    obtain ⟨off, ho⟩ := ho
    have hwf := hall _ hw
    simp only [wfWin, Bool.and_eq_true] at hwf
    obtain ⟨-, h3⟩ := hwf
    rw [Option.isSome_iff_exists] at h3
    obtain ⟨mx, hm⟩ := h3
    have hpos := windowResults_pos term kvs title wm_class off mx ht hc ho htr hm
    have hmem : (⟨"activate:" ++ pyStr (pyDictGet kvs "id" PyVal.none), title,
        "Activate | Class: " ++ wm_class, wm_class, 100, false, off⟩ : SearchResult) ∈
        (windowResults term (.dict kvs)).1 := by
      rw [hpos]
      simp
    have hin := searchLoop_wf_mem term wins hall _ hw _ hmem
    have hse := search_eq_of env q trigger wins hf hg
    rw [← hterm] at hse
    exact ⟨_, by rw [hse]; exact hin, rfl, rfl⟩
  · intro h1 h2
    have ho : matchOffset term (pyLower title) (pyLower wm_class) = Option.none := by
      unfold matchOffset
      rw [h1, h2]
    rw [windowResults_nomatch term kvs title wm_class ht hc ho]

/-- Witness for C7 at `env1` and query `"w fire"` (term `"fire"` occurs
in the title "Firefox"). -/
theorem claim_C7_exposure_witness :
    ∃ r ∈ (search env1 "w fire").1,
      r.id = "activate:" ++ pyStr (pyDictGet [("id", PyVal.int 1),
        ("title", PyVal.str "Firefox"), ("wm_class", PyVal.str "firefox"),
        ("maximized", PyVal.int 0)] "id" PyVal.none) ∧ r.title = "Firefox" :=
  (claim_C7_exposure env1 "w fire" "w " "fire"
    [.dict [("id", .int 1), ("title", .str "Firefox"),
      ("wm_class", .str "firefox"), ("maximized", .int 0)]]
    [("id", .int 1), ("title", .str "Firefox"),
      ("wm_class", .str "firefox"), ("maximized", .int 0)]
    "Firefox" "firefox" (by decide) (by decide) (by decide) (by decide)
    (by decide) (by decide) (by decide)).1 (Or.inl (by decide)) (by decide)

/-- Claim C8: keyword gating — a query whose lowercase form does not
start with `"w "`, `"win "` or `"window "` yields no results at all, no
exception and no bus call; in particular the bare keywords themselves
yield nothing. -/
theorem claim_C8_keyword_gate (env : DBusEnv) (q : String) :
    ((pyStartsWith (pyLower q) "w " = false ∧
      pyStartsWith (pyLower q) "win " = false ∧
      pyStartsWith (pyLower q) "window " = false) →
     search env q = ([], Option.none, [])) ∧
    search env "w" = ([], Option.none, []) ∧
    search env "win" = ([], Option.none, []) ∧
    search env "window" = ([], Option.none, []) := by
  refine ⟨?_, ?_, ?_, ?_⟩
  · rintro ⟨h1, h2, h3⟩
    exact search_untriggered env q (findTrigger_none q h1 h2 h3)
  · exact search_untriggered env "w"
      (findTrigger_none "w" (by decide) (by decide) (by decide))
  · exact search_untriggered env "win"
      (findTrigger_none "win" (by decide) (by decide) (by decide))
  · exact search_untriggered env "window"
      (findTrigger_none "window" (by decide) (by decide) (by decide))

/-- Witness for C8 at `env1` and the untriggered query `"hello"`. -/
theorem claim_C8_keyword_gate_witness :
    search env1 "hello" = ([], Option.none, []) :=
  (claim_C8_keyword_gate env1 "hello").1 ⟨by decide, by decide, by decide⟩

/-- Claim C9: per-window result shape — a matching window with a truthy
id yields exactly three results, in order: activate (score 100), close
(score 90), and one of unmaximize/maximize (score 80) according to
whether the `maximized` field compares `> 0`; never both; no result id
ever names the minimize action, although `execute_action` supports it. -/
theorem claim_C9_result_shape (term : String) (kvs : List (String × PyVal))
    (title wm_class : String) (off : Nat) (mx : Bool)
    (ht : pyAsStr (pyDictGet kvs "title" (.str "Untitled Window")) = Option.some title)
    (hc : pyAsStr (pyDictGet kvs "wm_class" (.str "unknown")) = Option.some wm_class)
    (ho : matchOffset term (pyLower title) (pyLower wm_class) = Option.some off)
    (htr : pyTruthy (pyDictGet kvs "id" .none) = true)
    (hm : pyGtZero (pyDictGet kvs "maximized" (.int 0)) = Option.some mx) :
    (∃ r1 r2 r3 : SearchResult,
      windowResults term (.dict kvs) = ([r1, r2, r3], Option.none) ∧
      r1.score = 100 ∧ r1.id = "activate:" ++ pyStr (pyDictGet kvs "id" .none) ∧
      r2.score = 90 ∧ r2.id = "close:" ++ pyStr (pyDictGet kvs "id" .none) ∧
      r3.score = 80 ∧
      (mx = true → r3.id = "unmaximize:" ++ pyStr (pyDictGet kvs "id" .none)) ∧
      (mx = false → r3.id = "maximize:" ++ pyStr (pyDictGet kvs "id" .none))) ∧
    (∀ (env : DBusEnv) (q : String), ∀ r ∈ (search env q).1, ∀ s : String,
       r.id ≠ "minimize:" ++ s) ∧
    (∀ env : DBusEnv, env.proxyOk = true → ∀ n : Int,
       execute_action env "minimize" n = [⟨"Minimize", [.u (.int n)]⟩]) := by
  refine ⟨?_, fun env q r hr s => search_no_minimize env q r hr s,
    fun env hp n => execute_action_minimize env n hp⟩
  refine ⟨_, _, _,
    windowResults_pos term kvs title wm_class off mx ht hc ho htr hm,
    rfl, rfl, rfl, rfl, ?_, ?_, ?_⟩
  · cases mx <;> rfl
  · intro hmx; subst hmx; rfl
  · intro hmx; subst hmx; rfl

/-- Witness for C9 at the term `"fire"` and the window fetched by
`env1` (unmaximized, so the third result is a maximize result). -/
theorem claim_C9_result_shape_witness :
    ∃ r1 r2 r3 : SearchResult,
      windowResults "fire" (.dict [("id", PyVal.int 1),
        ("title", PyVal.str "Firefox"), ("wm_class", PyVal.str "firefox"),
        ("maximized", PyVal.int 0)]) = ([r1, r2, r3], Option.none) ∧
      r1.score = 100 ∧ r1.id = "activate:" ++ pyStr (pyDictGet [("id", PyVal.int 1),
        ("title", PyVal.str "Firefox"), ("wm_class", PyVal.str "firefox"),
        ("maximized", PyVal.int 0)] "id" PyVal.none) ∧
      r2.score = 90 ∧ r2.id = "close:" ++ pyStr (pyDictGet [("id", PyVal.int 1),
        ("title", PyVal.str "Firefox"), ("wm_class", PyVal.str "firefox"),
        ("maximized", PyVal.int 0)] "id" PyVal.none) ∧
      r3.score = 80 ∧
      (false = true → r3.id = "unmaximize:" ++ pyStr (pyDictGet [("id", PyVal.int 1),
        ("title", PyVal.str "Firefox"), ("wm_class", PyVal.str "firefox"),
        ("maximized", PyVal.int 0)] "id" PyVal.none)) ∧
      (false = false → r3.id = "maximize:" ++ pyStr (pyDictGet [("id", PyVal.int 1),
        ("title", PyVal.str "Firefox"), ("wm_class", PyVal.str "firefox"),
        ("maximized", PyVal.int 0)] "id" PyVal.none)) :=
  (claim_C9_result_shape "fire"
    [("id", .int 1), ("title", .str "Firefox"),
      ("wm_class", .str "firefox"), ("maximized", .int 0)]
    "Firefox" "firefox" 0 false (by decide) (by decide) (by decide)
    (by decide) (by decide)).1

/-- Claim C10: `launch` is total over malformed ids and performs no bus
call on them — ids starting with `"error:"`, ids that do not split on
`":"` into exactly two parts, and ids whose second part is not an
integer all produce no call; any id that does produce a call splits into
an action and an integer. -/
theorem claim_C10_launch_total (env : DBusEnv) (id : String) :
    (pyStartsWith id "error:" = true → launch env id = []) ∧
    ((∀ a b : String, pySplitColon id ≠ [a, b]) → launch env id = []) ∧
    (∀ a b : String, pySplitColon id = [a, b] → pyInt b = Option.none →
       launch env id = []) ∧
    (launch env id ≠ [] →
       ∃ a b n, pySplitColon id = [a, b] ∧ pyInt b = Option.some n) := by
  refine ⟨?_, ?_, ?_, ?_⟩
  · intro he
    simp [launch, he]
  · intro hno
    unfold launch
    split
    · rfl
    · split
      · rename_i a b heq
        exact absurd heq (hno a b)
      · rfl
  · intro a b heq hint
    unfold launch
    split
    · rfl
    · split
      · rename_i a2 b2 heq2
        rw [heq] at heq2
        injection heq2 with ha2 htl
        injection htl with hb2 _
        subst ha2
        subst hb2
        simp [hint]
      · rfl
  · intro hne
    unfold launch at hne
    split at hne
    · exact absurd rfl hne
    · split at hne
      · rename_i a b heq
        cases hint : pyInt b with
        | none =>
          simp [hint] at hne
        | some n => exact ⟨a, b, n, heq, hint⟩
      · exact absurd rfl hne

/-- Witness for C10: the three kinds of non-dispatching ids on a live
environment. -/
theorem claim_C10_launch_total_witness :
    launch env1 "error:no-connection" = [] ∧
    launch env1 "activate:x" = [] ∧
    launch env1 "noidea" = [] :=
  ⟨(claim_C10_launch_total env1 "error:no-connection").1 (by decide),
   (claim_C10_launch_total env1 "activate:x").2.2.1 "activate" "x"
     (by decide) (by decide),
   (claim_C10_launch_total env1 "noidea").2.1 (by
     intro a b h
     rw [show pySplitColon "noidea" = ["noidea"] from by decide] at h
     simp at h)⟩
